import Mathlib

/-!
Verification of the environment template synthesis engine of fuel-devops
(`devops/helpers/templates.py`), shallowly embedded in Lean 4.

Python dictionaries are modelled as order-preserving association lists
(`List (String × V)`); raising an exception is modelled with `Except`.
The distinct runtime failure kinds that can escape the engine are kept
apart in `PyErr`: `devops` is the repository's own `error.DevopsError`,
while `key`, `value` and `index` stand for the interpreter's built-in
`KeyError`, `ValueError` and `IndexError`.
-/

deriving instance DecidableEq for Except

/-- Runtime failures: `devops msg` models `error.DevopsError(msg)`;
`key k` a Python `KeyError(k)` from an unchecked dict access;
`value s` a `ValueError` (e.g. `int(s)` on a non-numeric string);
`index` an `IndexError` from an out-of-bounds list access. -/
inductive PyErr where
  | devops (msg : String)
  | key (k : String)
  | value (s : String)
  | index
deriving DecidableEq

/-- `true` iff the computation failed with the repository's own
`DevopsError` (as opposed to a built-in interpreter exception). -/
def isDevopsError {α : Type} : Except PyErr α → Bool
  | .error (.devops _) => true
  | _ => false

/-- Lookup in an association list modelling a Python dict read `d[k]`
(first binding wins; `dictSet` keeps keys unique, matching dicts). -/
def dlookup {V : Type} (l : List (String × V)) (k : String) : Option V :=
  (l.find? (fun p => p.1 = k)).map (fun p => p.2)

/-- Python dict assignment `d[k] = v`: replace the existing binding of `k`
in place, or append a new binding at the end (dict insertion order). -/
def dictSet {V : Type} (l : List (String × V)) (k : String) (v : V) :
    List (String × V) :=
  if l.any (fun p => p.1 = k) then
    l.map (fun p => if p.1 = k then (k, v) else p)
  else l ++ [(k, v)]

/-- Does the second char list start with the first? -/
def startsWithCL : List Char → List Char → Bool
  | [], _ => true
  | _ :: _, [] => false
  | p :: ps, c :: cs => p = c && startsWithCL ps cs

/-- Does the second char list contain the first as a contiguous run? -/
def containsCL (pat : List Char) : List Char → Bool
  | [] => startsWithCL pat []
  | c :: cs => startsWithCL pat (c :: cs) || containsCL pat cs

/-- Python substring test `pat in s`. -/
def strContains (s pat : String) : Bool :=
  containsCL pat.data s.data

example : strContains "public" "public" = true := by decide

example : strContains "public2" "public" = true := by decide

example : strContains "admin" "public" = false := by decide

/-- Python format `'{0:0>2}'.format(n)`: decimal, left-padded with zeros
to width 2. -/
def pad2 (n : Nat) : String :=
  let s := toString n
  if s.length < 2 then "0" ++ s else s

/-- Decimal digits accumulator for `parseNat`. -/
def parseNatAux : List Char → Nat → Option Nat
  | [], acc => some acc
  | c :: cs, acc =>
    if c.isDigit then parseNatAux cs (acc * 10 + (c.toNat - 48)) else none

/-- Python `int(s)` on a non-negative decimal string: `none` models the
`ValueError` raised on a malformed literal.  (Config prefix lengths are
plain digit strings, so sign/whitespace handling is not modelled.) -/
def parseNat (s : String) : Option Nat :=
  match s.data with
  | [] => none
  | cs => parseNatAux cs 0

/-- Truthiness of an optional integer parameter in Python:
`None` and `0` are falsy. -/
def pyTruthy (o : Option Nat) : Bool :=
  match o with
  | none => false
  | some n => n != 0

/-- Python `o or d` for an optional integer `o`: the value of `o` when
truthy, the default `d` otherwise. -/
def pyOrD (o : Option Nat) (d : Nat) : Nat :=
  if pyTruthy o then o.getD d else d

/-- Left-to-right effectful map over a list in the `Except` monad; the
first raised exception aborts the whole comprehension, exactly like a
Python list/dict comprehension. -/
def mapE {ε α β : Type} (f : α → Except ε β) : List α → Except ε (List β)
  | [] => .ok []
  | a :: l =>
    match f a with
    | .error e => .error e
    | .ok b =>
      match mapE f l with
      | .error e => .error e
      | .ok bs => .ok (b :: bs)

/-- The logical network name exposed for a network device: the device
`admin` is exposed as `fuelweb_admin`, every other device as itself
(templates.py lines 156-157, 282-283, 349-352). -/
def logicalNet (iname : String) : String :=
  if iname = "admin" then "fuelweb_admin" else iname

/-- One NUMA cell: the comma-joined CPU-id list and the memory share
(templates.py `_calculate_numa`, lines 434-437). -/
structure NumaCell where
  cpus : String
  memory : Nat
deriving DecidableEq

/-- Error message of `_calculate_numa` for a non-exact CPU split. -/
def numaCpuErrMsg (numa_nodes vcpu : Nat) (name : String) : String :=
  "NUMA_NODES=" ++ toString numa_nodes ++
    " is not a multiple of the number of CPU=" ++ toString vcpu ++
    " for node '" ++ name ++ "'"

/-- Error message of `_calculate_numa` for a non-exact memory split. -/
def numaMemErrMsg (numa_nodes memory : Nat) (name : String) : String :=
  "NUMA_NODES=" ++ toString numa_nodes ++
    " is not a multiple of the amount of MEMORY=" ++ toString memory ++
    " for node '" ++ name ++ "'"

/-- `_calculate_numa(numa_nodes, vcpu, memory, name)`
(templates.py lines 414-440).  `numa_nodes = 0` models a falsy
`numa_nodes` (the `if numa_nodes:` guard), yielding no cells.  Cell `x`
joins the ids `range(x * cpus_per_numa, (x + 1) * cpus_per_numa)` with
commas; `List.range' s c` is that half-open range of length `c`. -/
def calculate_numa (numa_nodes vcpu memory : Nat) (name : String) :
    Except PyErr (List NumaCell) :=
  if numa_nodes = 0 then .ok []
  else
    let cpus_per_numa := vcpu / numa_nodes
    if cpus_per_numa * numa_nodes ≠ vcpu then
      .error (.devops (numaCpuErrMsg numa_nodes vcpu name))
    else
      let memory_per_numa := memory / numa_nodes
      if memory_per_numa * numa_nodes ≠ memory then
        .error (.devops (numaMemErrMsg numa_nodes memory name))
      else
        .ok ((List.range numa_nodes).map (fun x =>
          { cpus := String.intercalate ","
              ((List.range' (x * cpus_per_numa) cpus_per_numa).map
                (fun c => toString c))
            memory := memory_per_numa }))

example : calculate_numa 2 4 6 "admin" =
    .ok [{ cpus := "0,1", memory := 3 }, { cpus := "2,3", memory := 3 }] := by
  decide

example : calculate_numa 2 3 6 "admin" =
    .error (.devops (numaCpuErrMsg 2 3 "admin")) := by decide

example : calculate_numa 0 3 6 "admin" = .ok [] := by decide

/-- For positive `n`, the guard `cpus_per_numa * numa_nodes != vcpu` of
`_calculate_numa` is exactly non-divisibility. -/
theorem div_mul_eq_self_iff {a n : Nat} (hn : 0 < n) :
    a / n * n = a ↔ a % n = 0 := by
  constructor
  · intro he
    exact Nat.mod_eq_zero_of_dvd ⟨a / n, by rw [Nat.mul_comm]; exact he.symm⟩
  · intro hm
    exact Nat.div_mul_cancel (Nat.dvd_of_mod_eq_zero hm)

/-- C1: for every `numa_nodes > 0`, `vcpu` and `memory` with
`vcpu mod numa_nodes = 0` and `memory mod numa_nodes = 0`, the NUMA
planner `_calculate_numa` returns exactly `numa_nodes` cells, where cell
`i` holds the comma-joined CPU ids from `i*(vcpu/numa_nodes)` up to
`(i+1)*(vcpu/numa_nodes) - 1` and a memory share of
`memory/numa_nodes`; the cells' CPU-id counts sum to `vcpu` and their
memory shares sum to `memory` exactly. -/
theorem numa_exact_split (n vcpu mem : Nat) (name : String)
    (hn : 0 < n) (hv : vcpu % n = 0) (hm : mem % n = 0) :
    ∃ cells, calculate_numa n vcpu mem name = .ok cells ∧
      cells.length = n ∧
      (∀ i, i < n →
        cells[i]? = some
          { cpus := String.intercalate ","
              ((List.range' (i * (vcpu / n)) (vcpu / n)).map
                (fun c => toString c))
            memory := mem / n }) ∧
      ((List.range n).map
        (fun i => (List.range' (i * (vcpu / n)) (vcpu / n)).length)).sum
        = vcpu ∧
      (cells.map (fun c => c.memory)).sum = mem := by
  have hne : n ≠ 0 := hn.ne'
  have h1 : vcpu / n * n = vcpu := (div_mul_eq_self_iff hn).2 hv
  have h2 : mem / n * n = mem := (div_mul_eq_self_iff hn).2 hm
  refine ⟨(List.range n).map (fun x =>
      { cpus := String.intercalate ","
          ((List.range' (x * (vcpu / n)) (vcpu / n)).map
            (fun c => toString c))
        memory := mem / n }), ?_, ?_, ?_, ?_, ?_⟩
  · simp only [calculate_numa, hne, if_false, ite_false, if_neg hne]
    rw [if_neg (by simp [h1]), if_neg (by simp [h2])]
  · simp
  · intro i hi
    simp [List.getElem?_map, List.getElem?_range hi]
  · have : ((List.range n).map
        (fun i => (List.range' (i * (vcpu / n)) (vcpu / n)).length)).sum
        = ((List.range n).map (fun _ => vcpu / n)).sum := by
      simp [List.length_range']
    rw [this, List.map_const', List.sum_replicate, List.length_range,
      smul_eq_mul]
    exact Nat.mul_div_cancel' (Nat.dvd_of_mod_eq_zero hv)
  · rw [List.map_map]
    have : ((fun c => NumaCell.memory c) ∘ (fun x =>
        ({ cpus := String.intercalate ","
            ((List.range' (x * (vcpu / n)) (vcpu / n)).map
              (fun c => toString c))
           memory := mem / n } : NumaCell))) = (fun _ => mem / n) := rfl
    rw [this, List.map_const', List.sum_replicate, List.length_range,
      smul_eq_mul]
    exact Nat.mul_div_cancel' (Nat.dvd_of_mod_eq_zero hm)

/-- Witness for C1 at `numa_nodes = 2`, `vcpu = 4`, `memory = 6`. -/
theorem numa_exact_split_witness :
    0 < 2 ∧ 4 % 2 = 0 ∧ 6 % 2 = 0 ∧
    ∃ cells, calculate_numa 2 4 6 "admin" = .ok cells ∧
      cells.length = 2 ∧
      (∀ i, i < 2 →
        cells[i]? = some
          { cpus := String.intercalate ","
              ((List.range' (i * (4 / 2)) (4 / 2)).map
                (fun c => toString c))
            memory := 6 / 2 }) ∧
      ((List.range 2).map
        (fun i => (List.range' (i * (4 / 2)) (4 / 2)).length)).sum = 4 ∧
      (cells.map (fun c => c.memory)).sum = 6 :=
  ⟨by decide, by decide, by decide,
    numa_exact_split 2 4 6 "admin" (by decide) (by decide) (by decide)⟩

/-- C3: for every `numa_nodes > 0` and `vcpu` with
`vcpu mod numa_nodes ≠ 0`, `_calculate_numa` fails with a
`DevopsError` whose message names the node (so no cells are produced);
the same failure, naming the node, occurs for every `memory` with
`memory mod numa_nodes ≠ 0` when `vcpu` divides evenly. -/
theorem numa_nonexact_split_error (n vcpu mem : Nat) (name : String)
    (hn : 0 < n) :
    (vcpu % n ≠ 0 →
      ∃ pre post, calculate_numa n vcpu mem name =
        .error (.devops (pre ++ name ++ post))) ∧
    (vcpu % n = 0 → mem % n ≠ 0 →
      ∃ pre post, calculate_numa n vcpu mem name =
        .error (.devops (pre ++ name ++ post))) := by
  have hne : n ≠ 0 := hn.ne'
  constructor
  · intro h
    have hg : vcpu / n * n ≠ vcpu :=
      fun he => h ((div_mul_eq_self_iff hn).1 he)
    refine ⟨"NUMA_NODES=" ++ toString n ++
      " is not a multiple of the number of CPU=" ++ toString vcpu ++
      " for node '", "'", ?_⟩
    simp only [calculate_numa, if_neg hne]
    rw [if_pos hg]
    simp [numaCpuErrMsg, String.append_assoc]
  · intro hv h
    have h1 : vcpu / n * n = vcpu := (div_mul_eq_self_iff hn).2 hv
    have hg : mem / n * n ≠ mem :=
      fun he => h ((div_mul_eq_self_iff hn).1 he)
    refine ⟨"NUMA_NODES=" ++ toString n ++
      " is not a multiple of the amount of MEMORY=" ++ toString mem ++
      " for node '", "'", ?_⟩
    simp only [calculate_numa, if_neg hne]
    rw [if_neg (by simp [h1]), if_pos hg]
    simp [numaMemErrMsg, String.append_assoc]

/-- Witness for C3: the CPU split fails at `n = 2`, `vcpu = 3` and the
memory split fails at `n = 2`, `vcpu = 4`, `memory = 5`. -/
theorem numa_nonexact_split_error_witness :
    (0 < 2 ∧ 3 % 2 ≠ 0 ∧
      ∃ pre post, calculate_numa 2 3 6 "nodeX" =
        .error (.devops (pre ++ "nodeX" ++ post))) ∧
    (4 % 2 = 0 ∧ 5 % 2 ≠ 0 ∧
      ∃ pre post, calculate_numa 2 4 5 "nodeY" =
        .error (.devops (pre ++ "nodeY" ++ post))) :=
  ⟨⟨by decide, by decide,
      (numa_nonexact_split_error 2 3 6 "nodeX" (by decide)).1 (by decide)⟩,
    ⟨by decide, by decide,
      (numa_nonexact_split_error 2 4 5 "nodeY" (by decide)).2
        (by decide) (by decide)⟩⟩

/-- One node interface entry (templates.py lines 115-131, 224-257). -/
structure IfaceSpec where
  label : String
  l2_network_device : String
  interface_model : String
deriving DecidableEq

/-- One volume entry.  The Python dicts carry only the keys relevant to
the volume kind, so every optional key is an `Option` here: the admin
system volume has `capacity`/`format`, the admin iso volume has
`source_image`/`format`/`device`/`bus`, slave volumes have
`capacity`/`multipath_count` (templates.py lines 188-200, 288-322). -/
structure Volume where
  name : String
  capacity : Option Nat
  format : Option String
  source_image : Option String
  device : Option String
  bus : Option String
  multipath_count : Option Nat
deriving DecidableEq

/-- The `params` dict of a node config.  `bootmenu_timeout` is set only
for the admin node (`none` on slaves, whose dict has no such key). -/
structure NodeParams where
  vcpu : Nat
  memory : Nat
  boot : List String
  bootmenu_timeout : Option Nat
  numa : List NumaCell
  volumes : List Volume
  interfaces : List IfaceSpec
  network_config : List (String × List String)
deriving DecidableEq

/-- A node entry of the `nodes` list. -/
structure NodeConfig where
  name : String
  role : String
  params : NodeParams
deriving DecidableEq

/-- The sequential interface layout
`[{label: 'iface'+str(n), l2_network_device: iname, 'e1000'} for
n, iname in enumerate(interfaceorder)]`
(templates.py lines 125-131 and 251-257). -/
def seqInterfaces (interfaceorder : List String) : List IfaceSpec :=
  interfaceorder.enum.map (fun ni =>
    { label := "iface" ++ toString ni.1
      l2_network_device := ni.2
      interface_model := "e1000" })

/-- Lexicographic comparison of code-point lists, as Python compares
strings. -/
def charListLe : List Char → List Char → Bool
  | [], _ => true
  | _ :: _, [] => false
  | a :: as, b :: bs => if a = b then charListLe as bs else decide (a < b)

/-- `a <= b` on strings, by code points (Python string order). -/
def strLe (a b : String) : Bool := charListLe a.data b.data

/-- Insert into a sorted list, keeping order. -/
def orderedInsertStr (x : String) : List String → List String
  | [] => [x]
  | y :: ys => if strLe x y then x :: y :: ys else y :: orderedInsertStr x ys

/-- Python `sorted` on a list of strings (insertion sort; stable, and
agreement with Python's lexicographic string order via `strLe`). -/
def sortedStrings : List String → List String
  | [] => []
  | x :: xs => orderedInsertStr x (sortedStrings xs)

/-- The deprecated bonding interface layout (templates.py lines 110-121
and 238-249): invert `{net_name: [eth0, eth1]}` into
`{eth0: net_name, eth1: net_name}` (later bindings overwrite earlier
ones, as in a Python dict comprehension), then emit one entry per label
in `sorted(ifaces.keys())`. -/
def bondInterfaces (networks_bondinginterfaces : List (String × List String)) :
    List IfaceSpec :=
  let ifaces := networks_bondinginterfaces.foldl
    (fun acc p => p.2.foldl (fun acc2 label => dictSet acc2 label p.1) acc) []
  (sortedStrings (ifaces.map (fun p => p.1))).map
    (fun label =>
      { label := label
        l2_network_device := (dlookup ifaces label).getD ""
        interface_model := "e1000" })

/-- The `network_config` mapping built from an interface list: each
interface label maps to the one-element network list holding the
interface's device name, with `admin` renamed to `fuelweb_admin`
(templates.py lines 152-160 and 278-286). -/
def networkConfigOf (interfaces : List IfaceSpec) :
    List (String × List String) :=
  interfaces.map (fun iface => (iface.label, [logicalNet iface.l2_network_device]))

/-- `create_admin_config` (templates.py lines 98-206).  `networks_bonding`
is the truthiness of the Python parameter; the bonding interface map is
passed separately. -/
def create_admin_config (admin_vcpu admin_memory admin_sysvolume_capacity : Nat)
    (admin_iso_path boot_from : String) (interfaceorder : List String)
    (numa_nodes : Nat) (networks_bonding : Bool)
    (networks_bondinginterfaces : List (String × List String)) :
    Except PyErr NodeConfig :=
  let admin_interfaces :=
    if networks_bonding then bondInterfaces networks_bondinginterfaces
    else seqInterfaces interfaceorder
  let network_config := networkConfigOf admin_interfaces
  let bdib :=
    if boot_from = "usb" then ((["hd"], "disk"), ("usb", 3000))
    else ((["hd", "cdrom"], "cdrom"), ("ide", 0))
  match calculate_numa numa_nodes admin_vcpu admin_memory "admin" with
  | .error e => .error e
  | .ok numa =>
  .ok
    { name := "admin"
      role := "fuel_master"
      params :=
        { vcpu := admin_vcpu
          memory := admin_memory
          boot := bdib.1.1
          bootmenu_timeout := some bdib.2.2
          numa := numa
          volumes :=
            [ { name := "system"
                capacity := some admin_sysvolume_capacity
                format := some "qcow2"
                source_image := none, device := none, bus := none
                multipath_count := none },
              { name := "iso"
                capacity := none
                format := some "raw"
                source_image := some admin_iso_path
                device := some bdib.1.2
                bus := some bdib.2.1
                multipath_count := none } ]
          interfaces := admin_interfaces
          network_config := network_config } }

/-- A node group entry of `networks_nodegroups`; only its `pools` list is
read by `create_slave_config` (templates.py line 230). -/
structure Nodegroup where
  pools : List String
deriving DecidableEq

/-- `create_slave_config` (templates.py lines 209-343).  Option-valued
capacities model Python `None` defaults; `pyTruthy`/`pyOrD` model the
`if second_volume_capacity:` and `second_volume_capacity or
slave_volume_capacity` truthiness.  The multiple-networks branch picks
node group `1 - int(slave_name[-2:]) % 2`; node names always end in a
two-digit decimal suffix, so `toNat?` succeeds there. -/
def create_slave_config (slave_name slave_role : String)
    (slave_vcpu slave_memory slave_volume_capacity : Nat)
    (interfaceorder : List String) (numa_nodes : Nat)
    (second_volume_capacity third_volume_capacity : Option Nat)
    (use_all_disks : Bool) (multipath_count : Nat)
    (networks_multiplenetworks : Bool) (networks_nodegroups : List Nodegroup)
    (networks_bonding : Bool)
    (networks_bondinginterfaces : List (String × List String)) :
    Except PyErr NodeConfig :=
  let slave_interfaces :=
    if networks_multiplenetworks then
      let suffix := String.mk (slave_name.data.drop (slave_name.data.length - 2))
      let nodegroups_idx := 1 - ((parseNat suffix).getD 0) % 2
      seqInterfaces
        (((networks_nodegroups.get? nodegroups_idx).map
          (fun g => g.pools)).getD [])
    else if networks_bonding then bondInterfaces networks_bondinginterfaces
    else seqInterfaces interfaceorder
  let network_config := networkConfigOf slave_interfaces
  let volumes :=
    [ { name := "system"
        capacity := some slave_volume_capacity
        format := none, source_image := none, device := none, bus := none
        multipath_count := some multipath_count } ]
  let volumes :=
    if use_all_disks then
      volumes ++
        [ { name := "cinder"
            capacity := some (pyOrD second_volume_capacity slave_volume_capacity)
            format := none, source_image := none, device := none, bus := none
            multipath_count := some multipath_count },
          { name := "swift"
            capacity := some (pyOrD third_volume_capacity slave_volume_capacity)
            format := none, source_image := none, device := none, bus := none
            multipath_count := none } ]
    else
      let volumes :=
        if pyTruthy second_volume_capacity then
          volumes ++
            [ { name := "cinder"
                capacity := some (second_volume_capacity.getD 0)
                format := none, source_image := none, device := none
                bus := none
                multipath_count := some multipath_count } ]
        else volumes
      if pyTruthy third_volume_capacity then
        volumes ++
          [ { name := "swift"
              capacity := some (third_volume_capacity.getD 0)
              format := none, source_image := none, device := none
              bus := none
              multipath_count := none } ]
      else volumes
  match calculate_numa numa_nodes slave_vcpu slave_memory slave_name with
  | .error e => .error e
  | .ok numa =>
  .ok
    { name := slave_name
      role := slave_role
      params :=
        { vcpu := slave_vcpu
          memory := slave_memory
          boot := ["network", "hd"]
          bootmenu_timeout := none
          numa := numa
          volumes := volumes
          interfaces := slave_interfaces
          network_config := network_config } }

/-- `create_netpools` (templates.py lines 346-354): map each logical
network name (`fuelweb_admin` for the `admin` device, the device name
otherwise) to the device name, in interface order, with Python dict
assignment semantics. -/
def create_netpools (interfaceorder : List String) : List (String × String) :=
  interfaceorder.foldl (fun acc iname => dictSet acc (logicalNet iname) iname) []

example : create_netpools ["admin", "public"] =
    [("fuelweb_admin", "admin"), ("public", "public")] := by decide

example : bondInterfaces [("bondnet", ["eth1", "eth0"])] =
    [ { label := "eth0", l2_network_device := "bondnet"
        interface_model := "e1000" },
      { label := "eth1", l2_network_device := "bondnet"
        interface_model := "e1000" } ] := by decide

/-- The `params` block of an address pool (templates.py lines 361-371,
377-378, 391-394).  Both `ip_reserved` roles are the fixed offset `1`;
`ip_ranges` maps range names to `[start, end]` offset pairs, where a
negative offset counts from the end of the allocated subnet (`-2` is the
second-to-last address). -/
structure PoolParams where
  ip_reserved_gateway : Nat
  ip_reserved_l2_network_device : Nat
  ip_ranges : List (String × (Int × Int))
  vlan_start : Option Nat
  vlan_end : Option Nat
deriving DecidableEq

/-- One address pool: the colon-joined subnet descriptor and the params
block. -/
structure AddressPool where
  net : String
  params : PoolParams
deriving DecidableEq

/-- Resolve a relative range offset against a subnet of `size` addresses:
negative offsets count from the end (`-2 ↦ size - 2`). -/
def resolveOffset (size : Nat) (x : Int) : Int :=
  if x < 0 then (size : Int) + x else x

/-- Resolve both ends of an `[start, end]` range pair. -/
def resolveRange (size : Nat) (r : Int × Int) : Int × Int :=
  (resolveOffset size r.1, resolveOffset size r.2)

/-- The base pool built for one network by the dict comprehension of
`create_address_pools` (templates.py lines 358-373); an absent
`networks_pools[iname]` entry raises `KeyError(iname)`. -/
def basePoolFor (networks_pools : List (String × List String))
    (iname : String) : Except PyErr AddressPool :=
  match dlookup networks_pools iname with
  | none => .error (.key iname)
  | some pools =>
    .ok
      { net := String.intercalate ":" pools
        params :=
          { ip_reserved_gateway := 1
            ip_reserved_l2_network_device := 1
            ip_ranges := [("default", ((2 : Int), (-2 : Int)))]
            vlan_start := none
            vlan_end := none } }

/-- The post-processing loop body of `create_address_pools`
(templates.py lines 375-394) for one pool, keyed by substring matches on
the pool name.  For a name containing `public`, the first configured
subnet for key `public` is partitioned at the second configured prefix
length; `next(net.subnet(prefixlen=p)).size` for an IPv4 network is
`2 ^ (32 - p)`, which is how `network_size` is obtained here (the
subnet string itself only selects the partition's base address, which
the emitted offsets do not depend on). -/
def postPoolFor (networks_pools : List (String × List String))
    (iname : String) (pool : AddressPool) : Except PyErr AddressPool :=
  let pool :=
    if strContains iname "private" then
      { pool with params :=
          { pool.params with vlan_start := some 900, vlan_end := some 999 } }
    else pool
  if strContains iname "public" then
    match dlookup networks_pools "public" with
    | none => .error (.key "public")
    | some pub =>
      match pub.get? 0 with
      | none => .error PyErr.index
      | some _subnetStr =>
        match pub.get? 1 with
        | none => .error PyErr.index
        | some prefixStr =>
          match parseNat prefixStr with
          | none => .error (.value prefixStr)
          | some new_prefix =>
            let network_size := 2 ^ (32 - new_prefix)
            let ranges := dictSet pool.params.ip_ranges "default"
              ((2 : Int), ((network_size : Int) / 2 - 1))
            let ranges := dictSet ranges "floating"
              (((network_size : Int) / 2), (-2 : Int))
            .ok { pool with params :=
                    { pool.params with ip_ranges := ranges } }
  else
    .ok pool

/-- `create_address_pools` (templates.py lines 357-396): the base dict
comprehension over `interfaceorder`, then the mutating loop over the
pools. -/
def create_address_pools (interfaceorder : List String)
    (networks_pools : List (String × List String)) :
    Except PyErr (List (String × AddressPool)) :=
  match mapE (fun iname =>
      (basePoolFor networks_pools iname).map (fun p => (iname, p)))
      interfaceorder with
  | .error e => .error e
  | .ok base =>
    mapE (fun ip =>
      (postPoolFor networks_pools ip.1 ip.2).map (fun p => (ip.1, p))) base

/-- One L2 network device (templates.py lines 402-410). -/
structure L2Device where
  address_pool : String
  dhcp : Bool
  forward_mode : String
deriving DecidableEq

/-- The L2 device value built for one network by the dict comprehension
of `create_l2_network_devices` (templates.py lines 403-409); missing
`networks_dhcp`/`networks_forwarding` entries raise `KeyError`. -/
def l2DeviceFor (networks_dhcp : List (String × Bool))
    (networks_forwarding : List (String × String)) (iname : String) :
    Except PyErr L2Device :=
  match dlookup networks_dhcp iname with
  | none => .error (.key iname)
  | some dhcp =>
    match dlookup networks_forwarding iname with
    | none => .error (.key iname)
    | some fwd =>
      .ok { address_pool := iname, dhcp := dhcp, forward_mode := fwd }

/-- `create_l2_network_devices` (templates.py lines 399-411). -/
def create_l2_network_devices (interfaceorder : List String)
    (networks_dhcp : List (String × Bool))
    (networks_forwarding : List (String × String)) :
    Except PyErr (List (String × L2Device)) :=
  mapE (fun iname =>
    (l2DeviceFor networks_dhcp networks_forwarding iname).map
      (fun d => (iname, d)))
    interfaceorder

/-- The static driver params block (templates.py lines 555-566). -/
structure DriverParams where
  connection_string : String
  storage_pool_name : String
  stp : Bool
  hpet : Bool
  use_host_cpu : Bool
  enable_acpi : Bool
  enable_nwfilters : Bool
deriving DecidableEq

/-- One group of the produced config (templates.py lines 554-572). -/
structure GroupConfig where
  driver_name : String
  driver_params : DriverParams
  name : String
  network_pools : List (String × String)
  l2_network_devices : List (String × L2Device)
  nodes : List NodeConfig
deriving DecidableEq

/-- The `template.devops_settings` block of the produced config
(templates.py lines 548-576). -/
structure DevopsConfig where
  env_name : String
  address_pools : List (String × AddressPool)
  groups : List GroupConfig
deriving DecidableEq

/-- `create_devops_config` (templates.py lines 443-578).  When bonding is
on, the effective L2 interface ordering is the bonding map's key list
(`networks_bondinginterfaces.keys()`); address pools and netpools are
built from `networks_interfaceorder`, L2 devices from the effective
ordering.  Slaves are `slave-01 … slave-(nodes_count-1)` from
`range(1, nodes_count)`; ironic nodes `ironic-slave-01 …` from
`range(1, ironic_nodes_count + 1)` with the fixed `['ironic']`
ordering, `use_all_disks=False` and all other optional parameters at
their Python defaults. -/
def create_devops_config (boot_from env_name : String)
    (admin_vcpu admin_memory admin_sysvolume_capacity : Nat)
    (admin_iso_path : String)
    (nodes_count numa_nodes slave_vcpu slave_memory slave_volume_capacity : Nat)
    (second_volume_capacity third_volume_capacity : Option Nat)
    (use_all_disks : Bool) (multipath_count : Nat)
    (ironic_nodes_count : Nat)
    (networks_bonding : Bool)
    (networks_bondinginterfaces : List (String × List String))
    (networks_multiplenetworks : Bool)
    (networks_nodegroups : List Nodegroup)
    (networks_interfaceorder : List String)
    (networks_pools : List (String × List String))
    (networks_forwarding : List (String × String))
    (networks_dhcp : List (String × Bool))
    (driver_enable_acpi driver_enable_nwfilers : Bool) :
    Except PyErr DevopsConfig :=
  let l2_interfaceorder :=
    if networks_bonding then networks_bondinginterfaces.map (fun p => p.1)
    else networks_interfaceorder
  match create_address_pools networks_interfaceorder networks_pools with
  | .error e => .error e
  | .ok address_pools =>
  let netpools := create_netpools networks_interfaceorder
  match create_l2_network_devices l2_interfaceorder
      networks_dhcp networks_forwarding with
  | .error e => .error e
  | .ok l2_network_devices =>
  match create_admin_config admin_vcpu admin_memory
      admin_sysvolume_capacity admin_iso_path boot_from l2_interfaceorder
      numa_nodes networks_bonding networks_bondinginterfaces with
  | .error e => .error e
  | .ok admin_config =>
  match mapE (fun slave_n =>
      create_slave_config ("slave-" ++ pad2 slave_n) "fuel_slave"
        slave_vcpu slave_memory slave_volume_capacity l2_interfaceorder
        numa_nodes second_volume_capacity third_volume_capacity
        use_all_disks multipath_count networks_multiplenetworks
        networks_nodegroups networks_bonding networks_bondinginterfaces)
      (List.range' 1 (nodes_count - 1)) with
  | .error e => .error e
  | .ok slaves =>
  match mapE (fun ironic_n =>
      create_slave_config ("ironic-slave-" ++ pad2 ironic_n) "ironic_slave"
        slave_vcpu slave_memory slave_volume_capacity ["ironic"]
        numa_nodes none none false 0 false [] false [])
      (List.range' 1 ironic_nodes_count) with
  | .error e => .error e
  | .ok ironics =>
  .ok
    { env_name := env_name
      address_pools := address_pools
      groups :=
        [ { driver_name := "devops.driver.libvirt"
            driver_params :=
              { connection_string := "qemu:///system"
                storage_pool_name := "default"
                stp := true
                hpet := false
                use_host_cpu := true
                enable_acpi := driver_enable_acpi
                enable_nwfilters := driver_enable_nwfilers }
            name := "default"
            network_pools := netpools
            l2_network_devices := l2_network_devices
            nodes := admin_config :: (slaves ++ ironics) } ] }

/-- `dlookup` finds the head binding. -/
theorem dlookup_cons_self {V : Type} (a : String) (v : V)
    (t : List (String × V)) : dlookup ((a, v) :: t) a = some v := by
  simp [dlookup, List.find?]

/-- `dlookup` skips a head binding with a different key. -/
theorem dlookup_cons_ne {V : Type} (a x : String) (v : V)
    (t : List (String × V)) (h : a ≠ x) :
    dlookup ((a, v) :: t) x = dlookup t x := by
  simp [dlookup, List.find?, h]

/-- A successful `mapE` that pairs each input with a computed value keeps
exactly the input keys, in order. -/
theorem mapE_pair_fst {ε α β γ : Type} (f : α → Except ε γ) (key : α → β) :
    ∀ (l : List α) (res : List (β × γ)),
      mapE (fun a => (f a).map (fun c => (key a, c))) l = .ok res →
      res.map (fun p => p.1) = l.map key := by
  intro l
  induction l with
  | nil =>
    intro res h
    simp [mapE] at h
    simp [← h]
  | cons a t ih =>
    intro res h
    simp only [mapE] at h
    cases hfa : f a with
    | error e => rw [hfa] at h; simp [Except.map] at h
    | ok c =>
      rw [hfa] at h
      cases hmt : mapE (fun a => (f a).map (fun c => (key a, c))) t with
      | error e => rw [hmt] at h; simp [Except.map] at h
      | ok bs =>
        rw [hmt] at h
        simp [Except.map] at h
        rw [← h]
        simp [ih bs hmt]

/-- A successful key-pairing `mapE` over string keys: every listed key
resolves, through `dlookup`, to the value `f` computes for it. -/
theorem mapE_pair_lookup {ε γ : Type} (f : String → Except ε γ) :
    ∀ (l : List String) (res : List (String × γ)),
      mapE (fun a => (f a).map (fun c => (a, c))) l = .ok res →
      ∀ x, x ∈ l → ∃ v, f x = .ok v ∧ dlookup res x = some v := by
  intro l
  induction l with
  | nil => intro res h x hx; cases hx
  | cons a t ih =>
    intro res h x hx
    simp only [mapE] at h
    cases hfa : f a with
    | error e => rw [hfa] at h; simp [Except.map] at h
    | ok c =>
      rw [hfa] at h
      cases hmt : mapE (fun a => (f a).map (fun c => (a, c))) t with
      | error e => rw [hmt] at h; simp [Except.map] at h
      | ok bs =>
        rw [hmt] at h
        simp [Except.map] at h
        subst h
        by_cases hxa : x = a
        · subst hxa
          exact ⟨c, hfa, dlookup_cons_self x c bs⟩
        · have hax : a ≠ x := fun hh => hxa hh.symm
          rcases List.mem_cons.mp hx with h1 | h2
          · exact absurd h1 hxa
          · rcases ih bs hmt x h2 with ⟨v, hv, hl⟩
            exact ⟨v, hv, by rw [dlookup_cons_ne a x c bs hax]; exact hl⟩

/-- A successful per-entry transformation `mapE` over an association
list: every binding of the input is transformed pointwise in the
output. -/
theorem mapE_assoc_lookup {ε γ δ : Type} (g : String → γ → Except ε δ) :
    ∀ (l : List (String × γ)) (res : List (String × δ)),
      mapE (fun ip => (g ip.1 ip.2).map (fun q => (ip.1, q))) l = .ok res →
      ∀ x p, dlookup l x = some p →
        ∃ q, g x p = .ok q ∧ dlookup res x = some q := by
  intro l
  induction l with
  | nil => intro res h x p hx; simp [dlookup] at hx
  | cons ap t ih =>
    intro res h x p hx
    obtain ⟨ak, av⟩ := ap
    simp only [mapE] at h
    cases hfa : g ak av with
    | error e => rw [hfa] at h; simp [Except.map] at h
    | ok c =>
      rw [hfa] at h
      cases hmt : mapE (fun ip => (g ip.1 ip.2).map (fun q => (ip.1, q))) t with
      | error e => rw [hmt] at h; simp [Except.map] at h
      | ok bs =>
        rw [hmt] at h
        simp [Except.map] at h
        subst h
        by_cases hxa : x = ak
        · subst hxa
          rw [dlookup_cons_self x av t] at hx
          have hpv : p = av := by injection hx.symm
          subst hpv
          exact ⟨c, hfa, dlookup_cons_self x c bs⟩
        · have hax : ak ≠ x := fun hh => hxa hh.symm
          rw [dlookup_cons_ne ak x av t hax] at hx
          rcases ih bs hmt x p hx with ⟨q, hq, hl⟩
          exact ⟨q, hq, by rw [dlookup_cons_ne ak x c bs hax]; exact hl⟩

/-- A failing `mapE` fails with the error of one of its elements. -/
theorem mapE_error {ε α β : Type} (f : α → Except ε β) :
    ∀ (l : List α) (e : ε), mapE f l = .error e →
      ∃ a, a ∈ l ∧ f a = .error e := by
  intro l
  induction l with
  | nil => intro e h; simp [mapE] at h
  | cons a t ih =>
    intro e h
    simp only [mapE] at h
    cases hfa : f a with
    | error e' =>
      rw [hfa] at h
      exact ⟨a, List.mem_cons_self a t, by rw [hfa]; injection h with he; rw [he]⟩
    | ok b =>
      rw [hfa] at h
      cases hmt : mapE f t with
      | error e' =>
        rw [hmt] at h
        rcases ih e' hmt with ⟨x, hx, hfx⟩
        exact ⟨x, List.mem_cons_of_mem a hx,
          by rw [hfx]; injection h with he; rw [he]⟩
      | ok bs => rw [hmt] at h; cases h

/-- On a pool whose name contains `public`, with the `public` network
configured as subnet `10.0.0.0/24` and second prefix length `25`, the
post-processing step replaces the default range with `[2, 63]` and adds
the floating range `[64, -2]`. -/
theorem postPoolFor_public (np : List (String × List String)) (name : String)
    (pool : AddressPool)
    (h2 : strContains name "public" = true)
    (h3 : dlookup np "public" = some ["10.0.0.0/24", "25"])
    (hr : pool.params.ip_ranges = [("default", ((2 : Int), (-2 : Int)))]) :
    (postPoolFor np name pool).map (fun q => q.params.ip_ranges) =
      .ok [("default", ((2 : Int), (63 : Int))),
           ("floating", ((64 : Int), (-2 : Int)))] := by
  have hp : parseNat "25" = some 25 := rfl
  unfold postPoolFor
  rw [h2]
  by_cases hpriv : strContains name "private" = true
  · rw [hpriv]
    simp only [if_true, h3, List.get?, Except.map, hr, hp]
    rfl
  · rw [Bool.not_eq_true] at hpriv
    rw [hpriv]
    simp only [Bool.false_eq_true, if_false, if_true, h3, List.get?,
      Except.map, hr, hp]
    rfl

/-- C2: for every interface ordering containing a network whose name
contains `public`, with the public network's configured pool being
subnet `10.0.0.0/24` and second configured prefix length `25`
(partition size `S = 128`), `create_address_pools` sets the public
pool's `default` range to `[2, 63] = [2, S/2 - 1]` and adds a
`floating` range stored as `[64, -2]`, which resolves against the
partition to `[64, 126] = [S/2, S - 2]`; the two ranges are disjoint
and both lie within `[2, 126]`. -/
theorem public_pool_split (io : List String)
    (np : List (String × List String)) (name : String)
    (res : List (String × AddressPool))
    (h1 : name ∈ io)
    (h2 : strContains name "public" = true)
    (h3 : dlookup np "public" = some ["10.0.0.0/24", "25"])
    (h4 : create_address_pools io np = .ok res) :
    ∃ pool, dlookup res name = some pool ∧
      dlookup pool.params.ip_ranges "default" =
        some ((2 : Int), (63 : Int)) ∧
      dlookup pool.params.ip_ranges "floating" =
        some ((64 : Int), (-2 : Int)) ∧
      resolveRange 128 ((2 : Int), (63 : Int)) = ((2 : Int), (63 : Int)) ∧
      resolveRange 128 ((64 : Int), (-2 : Int)) = ((64 : Int), (126 : Int)) ∧
      ((63 : Int) < 64 ∧ (2 : Int) ≤ 2 ∧ (63 : Int) ≤ 126 ∧
        (2 : Int) ≤ 64 ∧ (126 : Int) ≤ 126) := by
  unfold create_address_pools at h4
  cases hb : mapE (fun iname =>
      (basePoolFor np iname).map (fun p => (iname, p))) io with
  | error e => rw [hb] at h4; cases h4
  | ok base =>
    rw [hb] at h4
    rcases mapE_pair_lookup (basePoolFor np) io base hb name h1 with
      ⟨v, hv, hlb⟩
    rcases mapE_assoc_lookup (postPoolFor np) base res h4 name v hlb with
      ⟨q, hq, hlr⟩
    have hvr : v.params.ip_ranges = [("default", ((2 : Int), (-2 : Int)))] := by
      unfold basePoolFor at hv
      cases hnp : dlookup np name with
      | none => rw [hnp] at hv; cases hv
      | some ps => rw [hnp] at hv; injection hv with h; rw [← h]
    have hpp := postPoolFor_public np name v h2 h3 hvr
    rw [hq] at hpp
    simp only [Except.map] at hpp
    have hqr : q.params.ip_ranges =
        [("default", ((2 : Int), (63 : Int))),
         ("floating", ((64 : Int), (-2 : Int)))] := by
      injection hpp
    exact ⟨q, hlr, by rw [hqr]; decide, by rw [hqr]; decide, by decide,
      by decide, by decide, by decide, by decide, by decide, by decide⟩

/-- Witness for C2 at the one-network ordering `["public"]`. -/
theorem public_pool_split_witness :
    ("public" ∈ ["public"]) ∧
    strContains "public" "public" = true ∧
    dlookup [("public", ["10.0.0.0/24", "25"])] "public" =
      some ["10.0.0.0/24", "25"] ∧
    ∃ res, create_address_pools ["public"]
        [("public", ["10.0.0.0/24", "25"])] = .ok res ∧
      ∃ pool, dlookup res "public" = some pool ∧
        dlookup pool.params.ip_ranges "default" =
          some ((2 : Int), (63 : Int)) ∧
        dlookup pool.params.ip_ranges "floating" =
          some ((64 : Int), (-2 : Int)) ∧
        resolveRange 128 ((2 : Int), (63 : Int)) = ((2 : Int), (63 : Int)) ∧
        resolveRange 128 ((64 : Int), (-2 : Int)) =
          ((64 : Int), (126 : Int)) ∧
        ((63 : Int) < 64 ∧ (2 : Int) ≤ 2 ∧ (63 : Int) ≤ 126 ∧
          (2 : Int) ≤ 64 ∧ (126 : Int) ≤ 126) :=
  ⟨by decide, by decide, by decide,
    ⟨_, rfl,
      public_pool_split ["public"] [("public", ["10.0.0.0/24", "25"])]
        "public" _ (by decide) (by decide) (by decide) rfl⟩⟩

/-- Counterexample for C9: with network `mynet` listed but absent from
`networks_pools`, `create_address_pools` fails with the interpreter's
`KeyError`, not with the repository's `DevopsError`/config error. -/
theorem missing_pool_not_configerror :
    create_address_pools ["mynet"] ([] : List (String × List String)) =
      .error (.key "mynet") ∧
    isDevopsError (create_address_pools ["mynet"]
      ([] : List (String × List String))) = false := by
  decide

/-- C9 (amended): for every call of `create_address_pools` in which some
network name of `interfaceorder` has no entry in `networks_pools`, the
call fails with an uncaught Python `KeyError` whose payload is an
unresolved network name from the ordering (not with the repository's
`DevopsError`). -/
theorem missing_pool_keyerror (io : List String)
    (np : List (String × List String)) (name : String)
    (h1 : name ∈ io) (h2 : dlookup np name = none) :
    ∃ k, create_address_pools io np = .error (.key k) ∧
      dlookup np k = none ∧ k ∈ io := by
  cases hb : mapE (fun iname =>
      (basePoolFor np iname).map (fun p => (iname, p))) io with
  | ok base =>
    exfalso
    rcases mapE_pair_lookup (basePoolFor np) io base hb name h1 with
      ⟨v, hv, _⟩
    unfold basePoolFor at hv
    rw [h2] at hv
    cases hv
  | error e =>
    have h5 : create_address_pools io np = .error e := by
      unfold create_address_pools
      rw [hb]
    rcases mapE_error _ io e hb with ⟨a, ha, hfa⟩
    unfold basePoolFor at hfa
    cases hna : dlookup np a with
    | none =>
      rw [hna] at hfa
      simp only [Except.map] at hfa
      have hke : PyErr.key a = e := by injection hfa
      exact ⟨a, by rw [h5, ← hke], hna, ha⟩
    | some ps =>
      rw [hna] at hfa
      simp [Except.map] at hfa

/-- Witness for the amended C9 at ordering `["mynet"]` and an empty
pool map. -/
theorem missing_pool_keyerror_witness :
    ("mynet" ∈ ["mynet"]) ∧
    dlookup ([] : List (String × List String)) "mynet" = none ∧
    ∃ k, create_address_pools ["mynet"]
        ([] : List (String × List String)) = .error (.key k) ∧
      dlookup ([] : List (String × List String)) k = none ∧
      k ∈ ["mynet"] :=
  ⟨by decide, by decide,
    missing_pool_keyerror ["mynet"] [] "mynet" (by decide) (by decide)⟩

/-- Counterexample for C4: booting the admin node from `usb` yields a
bootmenu timeout of 3000, not the zero (skipped menu) the claim
states. -/
theorem usb_boot_nonzero_bootmenu :
    (create_admin_config 1 1 1 "/iso" "usb" ["admin"] 0 false []).map
      (fun c => c.params.bootmenu_timeout) = .ok (some 3000) ∧
    some (3000 : Nat) ≠ some (0 : Nat) := by
  decide

/-- C4 (amended): in `create_admin_config`, `boot_from = "usb"` gives
the iso volume device `disk` and bus `usb`, boot order `["hd"]` and a
non-zero bootmenu timeout of 3000; every other `boot_from` gives device
`cdrom`, bus `ide`, boot order `["hd", "cdrom"]` and bootmenu timeout 0
(menu skipped). -/
theorem admin_boot_mode (admin_vcpu admin_memory cap : Nat)
    (iso_path boot_from : String) (io : List String) (numa_nodes : Nat)
    (bonding : Bool) (bi : List (String × List String)) (cfg : NodeConfig)
    (hok : create_admin_config admin_vcpu admin_memory cap iso_path
      boot_from io numa_nodes bonding bi = .ok cfg) :
    cfg.params.bootmenu_timeout =
      some (if boot_from = "usb" then 3000 else 0) ∧
    cfg.params.boot =
      (if boot_from = "usb" then ["hd"] else ["hd", "cdrom"]) ∧
    cfg.params.volumes.map (fun v => (v.name, v.device, v.bus)) =
      [("system", none, none),
       ("iso", some (if boot_from = "usb" then "disk" else "cdrom"),
        some (if boot_from = "usb" then "usb" else "ide"))] := by
  cases hnuma : calculate_numa numa_nodes admin_vcpu admin_memory "admin" with
  | error e =>
    exfalso
    simp only [create_admin_config, hnuma] at hok
    cases hok
  | ok nm =>
    by_cases hu : boot_from = "usb"
    · simp only [create_admin_config, hnuma, hu, if_true, if_pos] at hok
      injection hok with h
      rw [← h]
      simp [hu]
    · simp only [create_admin_config, hnuma, if_neg hu] at hok
      injection hok with h
      rw [← h]
      simp [hu]

/-- Witness for the amended C4 at `boot_from = "usb"` and at
`boot_from = "cdrom"`. -/
theorem admin_boot_mode_witness :
    (∃ cfg, create_admin_config 1 1 1 "/iso" "usb" ["admin"] 0 false [] =
        .ok cfg ∧
      cfg.params.bootmenu_timeout = some 3000 ∧
      cfg.params.boot = ["hd"] ∧
      cfg.params.volumes.map (fun v => (v.name, v.device, v.bus)) =
        [("system", none, none), ("iso", some "disk", some "usb")]) ∧
    (∃ cfg, create_admin_config 1 1 1 "/iso" "cdrom" ["admin"] 0 false [] =
        .ok cfg ∧
      cfg.params.bootmenu_timeout = some 0 ∧
      cfg.params.boot = ["hd", "cdrom"] ∧
      cfg.params.volumes.map (fun v => (v.name, v.device, v.bus)) =
        [("system", none, none), ("iso", some "cdrom", some "ide")]) := by
  constructor
  · refine ⟨_, rfl, ?_⟩
    have h := admin_boot_mode 1 1 1 "/iso" "usb" ["admin"] 0 false [] _ rfl
    simpa using h
  · refine ⟨_, rfl, ?_⟩
    have h := admin_boot_mode 1 1 1 "/iso" "cdrom" ["admin"] 0 false [] _ rfl
    simpa using h

/-- C7: calling the assembler with `nodes_count = 3`,
`ironic_nodes_count = 1` and `use_all_disks = false` (and no explicit
second/third volume capacities) produces exactly four node
specifications in order — one admin node, two slaves `slave-01` and
`slave-02`, and one ironic node `ironic-slave-01` — each of which has a
`system` volume and none of which has an extra `cinder`/`swift`
volume (the admin node additionally carries its fixed iso boot
volume). -/
theorem assemble_three_plus_ironic :
    (create_devops_config "cdrom" "env" 1 1 50 "/iso"
        3 0 1 1 50 none none false 0 1
        false [] false [] ["admin"] [("admin", ["10.0.0.0/24"])]
        [("admin", "nat")] [("admin", true)] false false).map
      (fun cfg => cfg.groups.map (fun g => g.nodes.map (fun nd =>
        (nd.name, nd.role, nd.params.volumes.map (fun v => v.name))))) =
      .ok [[("admin", "fuel_master", ["system", "iso"]),
            ("slave-01", "fuel_slave", ["system"]),
            ("slave-02", "fuel_slave", ["system"]),
            ("ironic-slave-01", "ironic_slave", ["system"])]] ∧
    (create_devops_config "cdrom" "env" 1 1 50 "/iso"
        3 0 1 1 50 none none false 0 1
        false [] false [] ["admin"] [("admin", ["10.0.0.0/24"])]
        [("admin", "nat")] [("admin", true)] false false).map
      (fun cfg => cfg.groups.all (fun g => g.nodes.all (fun nd =>
        (nd.params.volumes.any (fun v => v.name = "system")) &&
        !(nd.params.volumes.any (fun v =>
            v.name = "cinder" || v.name = "swift"))))) = .ok true := by
  constructor
  · decide
  · decide

/-- A successful `create_address_pools` keys its result exactly by the
interface ordering it was given. -/
theorem create_address_pools_keys (io : List String)
    (np : List (String × List String)) (res : List (String × AddressPool))
    (h : create_address_pools io np = .ok res) :
    res.map (fun p => p.1) = io := by
  unfold create_address_pools at h
  cases hb : mapE (fun iname =>
      (basePoolFor np iname).map (fun p => (iname, p))) io with
  | error e => rw [hb] at h; cases h
  | ok base =>
    rw [hb] at h
    have h1 := mapE_pair_fst (basePoolFor np) (fun a => a) io base hb
    have h2 := mapE_pair_fst (fun ip : String × AddressPool =>
      postPoolFor np ip.1 ip.2) (fun ip => ip.1) base res h
    rw [h2, h1, List.map_id']

/-- A successful `create_l2_network_devices` keys its result exactly by
the interface ordering it was given. -/
theorem create_l2_network_devices_keys (io : List String)
    (nd : List (String × Bool)) (nf : List (String × String))
    (res : List (String × L2Device))
    (h : create_l2_network_devices io nd nf = .ok res) :
    res.map (fun p => p.1) = io := by
  unfold create_l2_network_devices at h
  have h1 := mapE_pair_fst (l2DeviceFor nd nf) (fun a => a) io res h
  rw [h1, List.map_id']

/-- Counterexample for C6: with bonding on (keys `["bondnet"]`) and
caller ordering `["admin"]`, the address pools are keyed by the caller
ordering, not by the bonding keys from which the L2 devices are
built. -/
theorem bonding_pools_not_from_bonding_keys :
    (create_devops_config "cdrom" "env" 1 1 50 "/iso"
        1 0 1 1 50 none none false 0 0
        true [("bondnet", ["eth0", "eth1"])] false [] ["admin"]
        [("admin", ["10.0.0.0/24"])] [("bondnet", "nat")]
        [("bondnet", true)] false false).map
      (fun cfg => (cfg.address_pools.map (fun p => p.1),
        cfg.groups.map (fun g => g.l2_network_devices.map (fun p => p.1)))) =
      .ok (["admin"], [["bondnet"]]) ∧
    (["admin"] : List String) ≠ ["bondnet"] := by
  decide

/-- C6 (amended): when bonding is requested, `create_devops_config`
uses the bonding map's device-name keys as the effective ordering for
the L2 network devices (and node interfaces), but the address pools are
still built from the caller-supplied `networks_interfaceorder`. -/
theorem bonding_effective_ordering (boot_from env_name : String)
    (av am cap : Nat) (iso : String)
    (nodes_count numa_nodes sv sm svc : Nat)
    (secondc thirdc : Option Nat) (uad : Bool) (mc ironic : Nat)
    (bi : List (String × List String)) (mn : Bool) (ng : List Nodegroup)
    (io : List String) (np : List (String × List String))
    (nf : List (String × String)) (nd : List (String × Bool))
    (acpi nwf : Bool) (cfg : DevopsConfig)
    (hok : create_devops_config boot_from env_name av am cap iso
      nodes_count numa_nodes sv sm svc secondc thirdc uad mc ironic
      true bi mn ng io np nf nd acpi nwf = .ok cfg) :
    cfg.address_pools.map (fun p => p.1) = io ∧
    cfg.groups.map (fun g => g.l2_network_devices.map (fun p => p.1)) =
      [bi.map (fun p => p.1)] := by
  simp only [create_devops_config, if_true] at hok
  cases hap : create_address_pools io np with
  | error e => rw [hap] at hok; cases hok
  | ok ap =>
  rw [hap] at hok
  cases hl2 : create_l2_network_devices (bi.map (fun p => p.1)) nd nf with
  | error e => rw [hl2] at hok; cases hok
  | ok l2 =>
  rw [hl2] at hok
  cases hadm : create_admin_config av am cap iso boot_from
      (bi.map (fun p => p.1)) numa_nodes true bi with
  | error e => rw [hadm] at hok; cases hok
  | ok adm =>
  rw [hadm] at hok
  cases hsl : mapE (fun slave_n =>
      create_slave_config ("slave-" ++ pad2 slave_n) "fuel_slave"
        sv sm svc (bi.map (fun p => p.1)) numa_nodes secondc thirdc
        uad mc mn ng true bi) (List.range' 1 (nodes_count - 1)) with
  | error e => rw [hsl] at hok; cases hok
  | ok slaves =>
  rw [hsl] at hok
  cases hir : mapE (fun ironic_n =>
      create_slave_config ("ironic-slave-" ++ pad2 ironic_n) "ironic_slave"
        sv sm svc ["ironic"] numa_nodes none none false 0 false [] false [])
      (List.range' 1 ironic) with
  | error e => rw [hir] at hok; cases hok
  | ok ironics =>
  rw [hir] at hok
  injection hok with h
  rw [← h]
  exact ⟨create_address_pools_keys io np ap hap,
    by simp [create_l2_network_devices_keys _ nd nf l2 hl2]⟩

/-- Witness for the amended C6 at the counterexample's concrete input. -/
theorem bonding_effective_ordering_witness :
    ∃ cfg, create_devops_config "cdrom" "env" 1 1 50 "/iso"
        1 0 1 1 50 none none false 0 0
        true [("bondnet", ["eth0", "eth1"])] false [] ["admin"]
        [("admin", ["10.0.0.0/24"])] [("bondnet", "nat")]
        [("bondnet", true)] false false = .ok cfg ∧
      cfg.address_pools.map (fun p => p.1) = ["admin"] ∧
      cfg.groups.map (fun g => g.l2_network_devices.map (fun p => p.1)) =
        [[("bondnet", ["eth0", "eth1"])].map (fun p => p.1)] :=
  ⟨_, rfl,
    bonding_effective_ordering "cdrom" "env" 1 1 50 "/iso"
      1 0 1 1 50 none none false 0 0
      [("bondnet", ["eth0", "eth1"])] false [] ["admin"]
      [("admin", ["10.0.0.0/24"])] [("bondnet", "nat")]
      [("bondnet", true)] false false _ rfl⟩

/-- Python whitespace for `str.strip()` (the characters appearing in
config directive values). -/
def isPySpace (c : Char) : Bool :=
  c = ' ' || c = '\t' || c = '\n' || c = '\r'

/-- Drop leading whitespace of a char list. -/
def dropLeadingWS : List Char → List Char
  | [] => []
  | c :: cs => if isPySpace c then dropLeadingWS cs else c :: cs

/-- Python `s.strip()`: drop whitespace from both ends. -/
def strTrim (s : String) : String :=
  String.mk ((dropLeadingWS ((dropLeadingWS s.data).reverse)).reverse)

/-- Split a char list at the first occurrence of `c`, if any. -/
def splitOnceCL (c : Char) : List Char → (List Char × Option (List Char))
  | [] => ([], none)
  | x :: xs =>
    if x = c then ([], some xs)
    else
      let r := splitOnceCL c xs
      (x :: r.1, r.2)

/-- Python `s.split(c, 1)`: split at the first occurrence of `c` only;
the second component is `none` when `c` does not occur. -/
def splitOnce (s : String) (c : Char) : String × Option String :=
  let r := splitOnceCL c s.data
  (String.mk r.1, r.2.map (fun l => String.mk l))

/-- The `!os_env` handler `yaml_get_env_variable` (templates.py lines
39-61).  `env` is the process environment (`os.environ.get`);
`loaderName` is `loader.name`.  The function returns the raw string
value that the source then parses as a nested document with
`yaml.load(value, TemplateLoader)`; composing the result with any parse
function therefore models the handler's full behaviour. -/
def yaml_get_env_variable (env : String → Option String)
    (loaderName nodeValue : String) : Except PyErr String :=
  if strTrim nodeValue = "" then
    .error (.devops ("Environment variable is required after !os_env in "
      ++ loaderName))
  else
    let node_value := splitOnce nodeValue ','
    let env_variable := strTrim node_value.1
    let default_val := node_value.2.map (fun s => strTrim s)
    match env env_variable with
    | some v => .ok v
    | none =>
      match default_val with
      | some d => .ok d
      | none =>
        .error (.devops ("Environment variable " ++ env_variable ++
          " is not set from shell environment! No default value provided"
          ++ " in file " ++ loaderName))

example : splitOnce "FOO,bar" ',' = ("FOO", some "bar") := rfl

example : strTrim " bar " = "bar" := rfl

example (env : String → Option String) (fn : String) :
    yaml_get_env_variable env fn "" =
      .error (.devops ("Environment variable is required after !os_env in "
        ++ fn)) := rfl

/-- C8: loading a document containing the directive `!os_env FOO,bar`
yields the parsed value of `bar` when `FOO` is unset, and the parsed
value of `baz` when `FOO` is set to `baz` — the environment value takes
precedence over the supplied default, and the chosen string is handed
to the nested document parser (an arbitrary `p` here). -/
theorem os_env_directive (α : Type) (p : String → α)
    (env1 env2 : String → Option String) (fn : String)
    (h1 : env1 "FOO" = none) (h2 : env2 "FOO" = some "baz") :
    (yaml_get_env_variable env1 fn "FOO,bar").map p = .ok (p "bar") ∧
    (yaml_get_env_variable env2 fn "FOO,bar").map p = .ok (p "baz") := by
  have e1 : ∀ (env : String → Option String),
      yaml_get_env_variable env fn "FOO,bar" =
        (match env "FOO" with
         | some v => .ok v
         | none => .ok "bar") := fun env => rfl
  constructor
  · rw [e1 env1, h1]
    rfl
  · rw [e1 env2, h2]
    rfl

/-- Witness for C8 with one empty environment and one binding
`FOO = baz`. -/
theorem os_env_directive_witness :
    ((fun _ : String => (none : Option String)) "FOO" = none) ∧
    ((fun s : String => if s = "FOO" then some "baz" else none) "FOO"
      = some "baz") ∧
    (yaml_get_env_variable (fun _ => none) "cfg.yaml" "FOO,bar").map
      (fun s => s) = .ok "bar" ∧
    (yaml_get_env_variable
      (fun s => if s = "FOO" then some "baz" else none) "cfg.yaml"
      "FOO,bar").map (fun s => s) = .ok "baz" :=
  ⟨rfl, rfl,
    (os_env_directive String (fun s => s) (fun _ => none)
      (fun s => if s = "FOO" then some "baz" else none) "cfg.yaml"
      rfl rfl).1,
    (os_env_directive String (fun s => s) (fun _ => none)
      (fun s => if s = "FOO" then some "baz" else none) "cfg.yaml"
      rfl rfl).2⟩

/-- A source document node as seen by the template loader: a plain
scalar, or an `!include <path>` directive (templates.py lines 30-37).
Other node shapes (mappings, sequences) are irrelevant to include
resolution and elided; path joining against the including file's
directory (`os.path.join(os.path.dirname(loader.name), node.value)`) is
abstracted by treating file names as canonical identifiers. -/
inductive YDoc where
  | scalar (s : String)
  | inc (path : String)
deriving DecidableEq

/-- A fully resolved document (no directives left). -/
inductive RDoc where
  | scalar (s : String)
deriving DecidableEq

/-- Loader failures: `devops msg` models `error.DevopsError(msg)` (the
only error the source's loader raises); `outOfFuel` reports that the
recursion exceeded the given budget — the source recurses with no cycle
tracking and no bound, so a resolution that is `outOfFuel` for every
budget models a Python run that never returns (aborting only when the
interpreter's recursion limit fires, with `RecursionError`). -/
inductive LoadErr where
  | devops (msg : String)
  | outOfFuel
deriving DecidableEq

/-- `true` iff the load failed with the repository's `DevopsError`. -/
def isDevopsLoadErr : Except LoadErr RDoc → Bool
  | .error (.devops _) => true
  | _ => false

/-- Resolve one node of file `cur` against the file system `fs`,
recursing into `!include` targets exactly as `yaml_include` does
(templates.py lines 30-37): check existence, then load the included
file with the same loader.  `fuel` bounds the recursion depth the
unbounded Python recursion is allowed to take. -/
def resolveNode (fs : String → Option YDoc) :
    String → Nat → YDoc → Except LoadErr RDoc
  | _, _, .scalar s => .ok (.scalar s)
  | _, 0, .inc _ => .error .outOfFuel
  | cur, fuel + 1, .inc p =>
    match fs p with
    | none =>
      .error (.devops ("Cannot load the environment template " ++ cur ++
        " : include file " ++ p ++ " doesn't exist."))
    | some d => resolveNode fs p fuel d

/-- `yaml_template_load` (templates.py lines 26-78): check the file
exists, then resolve its document. -/
def yaml_template_load (fs : String → Option YDoc) (fuel : Nat)
    (config_file : String) : Except LoadErr RDoc :=
  match fs config_file with
  | none =>
    .error (.devops ("Cannot load the environment template " ++
      config_file ++ " : file doesn't exist."))
  | some d => resolveNode fs config_file fuel d

/-- The one-file cyclic file system: `a.yaml` includes itself. -/
def cyclicFS : String → Option YDoc :=
  fun n => if n = "a.yaml" then some (.inc "a.yaml") else none

/-- Resolving the self-include of `cyclicFS` exhausts any fuel. -/
theorem resolveNode_cyclic (fuel : Nat) :
    resolveNode cyclicFS "a.yaml" fuel (.inc "a.yaml") =
      .error .outOfFuel := by
  induction fuel with
  | zero => rfl
  | succ n ih =>
    show (match cyclicFS "a.yaml" with
      | none =>
        (Except.error (LoadErr.devops
          ("Cannot load the environment template " ++ "a.yaml" ++
            " : include file " ++ "a.yaml" ++ " doesn't exist.")) :
          Except LoadErr RDoc)
      | some d => resolveNode cyclicFS "a.yaml" n d) =
        Except.error LoadErr.outOfFuel
    rw [show cyclicFS "a.yaml" = some (.inc "a.yaml") from rfl]
    exact ih

/-- Counterexample for C5: loading the self-including `a.yaml` with a
generous recursion budget produces neither a document nor a
`DevopsError`/config error — the budget is simply exhausted. -/
theorem include_cycle_no_configerror :
    yaml_template_load cyclicFS 25 "a.yaml" = .error .outOfFuel ∧
    isDevopsLoadErr (yaml_template_load cyclicFS 25 "a.yaml") = false := by
  constructor
  · decide
  · decide

/-- C5 (amended): the document loader performs no cycle detection: on a
file whose include directives form a cycle, resolution exhausts every
recursion budget — it neither terminates with a loaded document nor
raises the repository's `DevopsError` (spec's `ConfigError`); the
Python original recurses unboundedly until the interpreter's
`RecursionError` aborts it. -/
theorem include_cycle_nonterminating (fuel : Nat) :
    yaml_template_load cyclicFS fuel "a.yaml" = .error .outOfFuel := by
  show resolveNode cyclicFS "a.yaml" fuel (.inc "a.yaml") =
    .error .outOfFuel
  exact resolveNode_cyclic fuel

/-- Indexing the sequential interface layout: entry `i` is labelled
`iface<i>` and bound, unchanged, to the `i`-th network device name. -/
theorem seqInterfaces_getElem (io : List String) (i : Nat) :
    (seqInterfaces io)[i]? = (io[i]?).map (fun nm =>
      { label := "iface" ++ toString i
        l2_network_device := nm
        interface_model := "e1000" }) := by
  unfold seqInterfaces
  rw [List.getElem?_map, List.getElem?_enum]
  cases io[i]? <;> rfl

/-- Indexing `network_config`: entry `i` maps label `i` to the logical
name of interface `i`'s device. -/
theorem networkConfigOf_getElem (ifs : List IfaceSpec) (i : Nat) :
    (networkConfigOf ifs)[i]? = (ifs[i]?).map (fun f =>
      (f.label, [logicalNet f.l2_network_device])) := by
  unfold networkConfigOf
  rw [List.getElem?_map]

/-- `dictSet` on a fresh key appends the binding. -/
theorem dictSet_of_not_mem {V : Type} (l : List (String × V)) (k : String)
    (v : V) (h : ∀ p ∈ l, p.1 ≠ k) : dictSet l k v = l ++ [(k, v)] := by
  have hnc : ¬ (l.any (fun p => p.1 = k) = true) := by
    simp only [List.any_eq_true, decide_eq_true_eq]
    rintro ⟨p, hp, he⟩
    exact h p hp he
  simp only [dictSet, if_neg hnc]

/-- Folding `create_netpools`'s dict assignments over fresh keys appends
one binding per network. -/
theorem create_netpools_foldl (io : List String) :
    ∀ acc : List (String × String),
      (∀ x ∈ io, ∀ p ∈ acc, p.1 ≠ logicalNet x) →
      (io.map logicalNet).Nodup →
      io.foldl (fun a iname => dictSet a (logicalNet iname) iname) acc =
        acc ++ io.map (fun i => (logicalNet i, i)) := by
  induction io with
  | nil => intro acc h hn; simp
  | cons a t ih =>
    intro acc h hn
    simp only [List.foldl_cons]
    rw [List.map_cons, List.nodup_cons] at hn
    have hstep : dictSet acc (logicalNet a) a = acc ++ [(logicalNet a, a)] :=
      dictSet_of_not_mem acc (logicalNet a) a
        (fun p hp => h a (List.mem_cons_self a t) p hp)
    rw [hstep]
    have h' : ∀ x ∈ t, ∀ p ∈ acc ++ [(logicalNet a, a)],
        p.1 ≠ logicalNet x := by
      intro x hx p hp
      rcases List.mem_append.mp hp with hp1 | hp2
      · exact h x (List.mem_cons_of_mem a hx) p hp1
      · have hpe : p = (logicalNet a, a) := by simpa using hp2
        rw [hpe]
        intro he
        have hxm : logicalNet x ∈ List.map logicalNet t :=
          List.mem_map_of_mem logicalNet hx
        rw [← he] at hxm
        exact hn.1 hxm
    rw [ih (acc ++ [(logicalNet a, a)]) h' hn.2]
    simp

/-- When the logical network names are pairwise distinct,
`create_netpools` is the positional pairing of logical name and device
name. -/
theorem create_netpools_eq (io : List String)
    (hn : (io.map logicalNet).Nodup) :
    create_netpools io = io.map (fun i => (logicalNet i, i)) := by
  unfold create_netpools
  rw [create_netpools_foldl io [] (by intro x hx p hp; cases hp) hn]
  simp

/-- C10: in every node's `network_config` mapping (admin and slave, for
the default sequential layout) and in the group-level `network_pools`
mapping, the network device named `admin` is exposed under the logical
name `fuelweb_admin` while every other device is exposed under its own
name; the node's interfaces list itself keeps the original device name
unchanged.  (`hn` rules out orderings whose logical names collide, where
later dict writes would overwrite earlier ones.) -/
theorem admin_exposed_as_fuelweb_admin (io : List String)
    (hn : (io.map logicalNet).Nodup) (i : Nat) (hi : i < io.length)
    (av am cap : Nat) (iso bf : String) (numa_nodes : Nat)
    (sn sr : String) (sv sm svc mc : Nat) (acfg scfg : NodeConfig)
    (ha : create_admin_config av am cap iso bf io numa_nodes false [] =
      .ok acfg)
    (hs : create_slave_config sn sr sv sm svc io numa_nodes none none
      false mc false [] false [] = .ok scfg) :
    acfg.params.interfaces[i]? = some
      { label := "iface" ++ toString i
        l2_network_device := io[i]
        interface_model := "e1000" } ∧
    acfg.params.network_config[i]? =
      some ("iface" ++ toString i, [logicalNet io[i]]) ∧
    scfg.params.interfaces[i]? = some
      { label := "iface" ++ toString i
        l2_network_device := io[i]
        interface_model := "e1000" } ∧
    scfg.params.network_config[i]? =
      some ("iface" ++ toString i, [logicalNet io[i]]) ∧
    (create_netpools io)[i]? = some (logicalNet io[i], io[i]) ∧
    logicalNet io[i] =
      (if io[i] = "admin" then "fuelweb_admin" else io[i]) := by
  have hio : io[i]? = some io[i] := List.getElem?_eq_getElem hi
  have hai : acfg.params.interfaces = seqInterfaces io ∧
      acfg.params.network_config = networkConfigOf (seqInterfaces io) := by
    cases hnuma : calculate_numa numa_nodes av am "admin" with
    | error e => simp only [create_admin_config, hnuma] at ha; cases ha
    | ok nm =>
      simp only [create_admin_config, hnuma, Bool.false_eq_true,
        if_false] at ha
      injection ha with h
      rw [← h]
      exact ⟨rfl, rfl⟩
  have hsi : scfg.params.interfaces = seqInterfaces io ∧
      scfg.params.network_config = networkConfigOf (seqInterfaces io) := by
    cases hnuma : calculate_numa numa_nodes sv sm sn with
    | error e => simp only [create_slave_config, hnuma] at hs; cases hs
    | ok nm =>
      simp only [create_slave_config, hnuma, Bool.false_eq_true,
        if_false] at hs
      injection hs with h
      rw [← h]
      exact ⟨rfl, rfl⟩
  refine ⟨?_, ?_, ?_, ?_, ?_, rfl⟩
  · rw [hai.1, seqInterfaces_getElem, hio]
    rfl
  · rw [hai.2, networkConfigOf_getElem, seqInterfaces_getElem, hio]
    rfl
  · rw [hsi.1, seqInterfaces_getElem, hio]
    rfl
  · rw [hsi.2, networkConfigOf_getElem, seqInterfaces_getElem, hio]
    rfl
  · rw [create_netpools_eq io hn, List.getElem?_map, hio]
    rfl

/-- Witness for C10 at the ordering `["admin", "public"]`, index 0 (the
`admin` device). -/
theorem admin_exposed_as_fuelweb_admin_witness :
    ((["admin", "public"].map logicalNet).Nodup ∧ 0 < 2) ∧
    ∃ acfg scfg,
      create_admin_config 1 1 1 "/iso" "cdrom" ["admin", "public"] 0
        false [] = .ok acfg ∧
      create_slave_config "slave-01" "fuel_slave" 1 1 50
        ["admin", "public"] 0 none none false 0 false [] false [] =
        .ok scfg ∧
      acfg.params.network_config[0]? = some ("iface0", ["fuelweb_admin"]) ∧
      scfg.params.network_config[0]? = some ("iface0", ["fuelweb_admin"]) ∧
      acfg.params.interfaces[0]? = some
        { label := "iface0", l2_network_device := "admin"
          interface_model := "e1000" } ∧
      (create_netpools ["admin", "public"])[0]? =
        some ("fuelweb_admin", "admin") := by
  refine ⟨⟨by decide, by decide⟩, ?_⟩
  refine ⟨_, _, rfl, rfl, ?_, ?_, ?_, ?_⟩
  all_goals
    have h := admin_exposed_as_fuelweb_admin ["admin", "public"]
      (by decide) 0 (by decide) 1 1 1 "/iso" "cdrom" 0 "slave-01"
      "fuel_slave" 1 1 50 0 _ _ rfl rfl
  · exact h.2.1
  · exact h.2.2.2.1
  · exact h.1
  · exact h.2.2.2.2.1
